import Mathlib

set_option linter.unusedVariables false

/-
Shallow embedding of the OpenSteamController jingle score compiler
(src/Jingle/SCJingleConverter/composition.cpp) and proofs about it.

Modelling conventions:
- C++ float/double values are modelled exactly over the rationals; the
  decimal literals of the source become exact rational constants.
- uint32_t counters are modelled as Nat (no overflow is reachable for the
  quantities involved in the claims).
- The external XML tokenizer is out of scope per the specification; the
  child-token extraction loops of composition.cpp are abstracted by taking
  the extracted values (step, alter, octave, duration, chord flag) as
  arguments, exactly as they come out of those loops.
- C++ member functions that mutate the Composition and return an ErrorCode
  are modelled as pure functions returning an (ErrorCode, Composition) pair,
  the second component being the state after the call (including partial
  mutation performed before an error return, as in the C++).
- Places where the C++ would perform undefined behaviour (out-of-bounds
  std::vector indexing, std::stack::top on an empty stack) are marked in
  comments; they are modelled with a default value and ruled out by the
  hypotheses of the theorems that could otherwise reach them.
-/

namespace OSC

/-- Error codes of Composition::ErrorCode as used by composition.cpp:
NO_ERROR, FILE_OPEN, XML_PARSE, CMD_ERR, BAD_IDX. The specification's
taxonomy names map onto these: InvalidPitch, ChordWithoutNote, ZeroBackup,
BackupUnderflow, UnresolvedBackup and XmlStructure are all XML_PARSE;
InvalidIndex is BAD_IDX; ProtocolError is CMD_ERR. -/
inductive ErrorCode where
  | NO_ERROR
  | FILE_OPEN
  | XML_PARSE
  | CMD_ERR
  | BAD_IDX
  deriving DecidableEq, Repr

/-- Note: ordered chord-member frequencies (Hz) and a length in
quarter-note units (float in C++, exact rational here). -/
structure Note where
  frequencies : List ℚ
  length : ℚ
  deriving DecidableEq, Repr

/-- Measure: ordered Notes plus the accumulated raw xml duration counter
(xmlDurationSum) used for backup bookkeeping. -/
structure Measure where
  notes : List Note
  xmlDurationSum : Nat
  deriving DecidableEq, Repr

/-- Part: ordered sequence of Measures. -/
structure Part where
  measures : List Measure
  deriving DecidableEq, Repr

/-- Channel as in composition.h: RIGHT or LEFT haptic channel. -/
inductive Channel where
  | RIGHT
  | LEFT
  deriving DecidableEq, Repr

/-- Composition state: the fields of the C++ Composition class that the
score compiler reads and writes. The std::stack members backups and
prevParts are modelled as lists whose head is the stack top. -/
structure Composition where
  parts : List Part
  currDivisions : Nat
  bpm : Nat
  currPart : Nat
  octaveAdjust : ℚ
  partIdxR : Nat
  partIdxL : Nat
  measStartIdx : Nat
  measEndIdx : Nat
  backups : List Nat
  prevParts : List Nat
  deriving DecidableEq, Repr

/-- Initial Composition state as set by the constructor
(composition.cpp lines 43-55). -/
def initialComposition : Composition where
  parts := []
  currDivisions := 1
  bpm := 100
  currPart := 0
  octaveAdjust := 1
  partIdxR := 0
  partIdxL := 0
  measStartIdx := 0
  measEndIdx := 0
  backups := []
  prevParts := []

/-! Pitch Resolver (Composition::parseXmlPitch, composition.cpp 419-486).
The XML child-extraction loop yields step, alter and octave; the arithmetic
below is the tail of the function. -/

/-- Half-step offset for each step letter (the if-chain of composition.cpp
lines 457-474); none models the final else branch rejecting the letter. -/
def stepHalfSteps : Char → Option Int
  | 'C' => some 0
  | 'D' => some 2
  | 'E' => some 4
  | 'F' => some 5
  | 'G' => some 7
  | 'A' => some 9
  | 'B' => some 11
  | _ => none

/-- Constant twelth_root_of_two of composition.cpp line 476, exactly. -/
def twelthRootOfTwo : ℚ := 1.059463094359

/-- Constant C_0_FREQ of composition.cpp line 482, exactly. -/
def C_0_FREQ : ℚ := 16.35

/-- Pitch Resolver: computes num_half_steps = octave * 12 + alter + offset
and multiplies C_0_FREQ by twelthRootOfTwo once per loop iteration; the
C++ loop `for cnt = 0; cnt < num_half_steps` runs num_half_steps.toNat
times (zero times when num_half_steps is negative). -/
def parseXmlPitch (step : Char) (alter octave : Int) : Except ErrorCode ℚ :=
  match stepHalfSteps step with
  | none => Except.error ErrorCode.XML_PARSE
  | some off =>
    let numHalfSteps : Int := octave * 12 + alter + off
    let factor : ℚ := twelthRootOfTwo ^ numHalfSteps.toNat
    Except.ok (C_0_FREQ * factor)

/-- C5 counterexample: at step C, alter -1, octave 0 the half-step total is
-1, the repeated-multiplication loop runs zero times, and the code returns
C_0_FREQ itself, not C_0_FREQ * twelthRootOfTwo ^ (-1) as the claim's
formula demands for negative half-step totals. -/
theorem parseXmlPitch_negative_counterexample :
    parseXmlPitch 'C' (-1) 0 = Except.ok C_0_FREQ
    ∧ C_0_FREQ ≠ C_0_FREQ * twelthRootOfTwo ^ ((0 : Int) * 12 + (-1) + 0) := by
  constructor
  · show Except.ok (C_0_FREQ * twelthRootOfTwo ^ (((0 : Int) * 12 + (-1) + 0).toNat))
      = Except.ok C_0_FREQ
    rw [show (((0 : Int) * 12 + (-1) + 0).toNat) = 0 by decide, pow_zero, mul_one]
  · intro h
    rw [show ((0 : Int) * 12 + (-1) + 0) = (-1 : Int) by norm_num] at h
    rw [zpow_neg, zpow_one] at h
    rw [twelthRootOfTwo, C_0_FREQ] at h
    norm_num at h

/-- C5 (amended): for every recognized step letter the Pitch Resolver
returns C_0_FREQ * twelthRootOfTwo ^ (octave*12 + alter + offset).toNat —
which agrees with the claimed formula 16.35 * (2^(1/12))^half_steps
whenever the half-step total is non-negative, but yields C_0_FREQ
unchanged for negative totals since the loop performs no multiplications —
and for every unrecognized step letter it fails with InvalidPitch
(XML_PARSE). -/
theorem parseXmlPitch_spec (step : Char) (alter octave : Int) :
    (∀ off, stepHalfSteps step = some off →
      parseXmlPitch step alter octave
          = Except.ok (C_0_FREQ * twelthRootOfTwo ^ (octave * 12 + alter + off).toNat)
        ∧ (0 ≤ octave * 12 + alter + off →
          parseXmlPitch step alter octave
            = Except.ok (C_0_FREQ * twelthRootOfTwo ^ (octave * 12 + alter + off))))
    ∧ (stepHalfSteps step = none →
      parseXmlPitch step alter octave = Except.error ErrorCode.XML_PARSE) := by
  constructor
  · intro off hoff
    constructor
    · simp only [parseXmlPitch, hoff]
    · intro hpos
      simp only [parseXmlPitch, hoff]
      rw [show twelthRootOfTwo ^ (octave * 12 + alter + off)
            = twelthRootOfTwo ^ (((octave * 12 + alter + off).toNat : Int)) by
          rw [Int.toNat_of_nonneg hpos]]
      rw [zpow_natCast]
  · intro hnone
    simp only [parseXmlPitch, hnone]

/-- Witness for C5: instantiates the amended pitch theorem at A4
(step A, alter 0, octave 4, offset 9, 57 half steps). -/
theorem parseXmlPitch_spec_witness :
    parseXmlPitch 'A' 0 4
      = Except.ok (C_0_FREQ * twelthRootOfTwo ^ (((4 : Int) * 12 + 0 + 9).toNat)) :=
  ((parseXmlPitch_spec 'A' 0 4).1 9 rfl).1

/-! Event-Driven Score Builder: note parsing
(Composition::parseXmlNote, composition.cpp 314-409).

The list helpers below model std::vector access patterns of the C++:
nthD is indexing with an explicit default (the default is unreachable under
the bounds hypotheses of the theorems), lastD is vector::back() with a
default, and updateLast models in-place mutation of vector::back(). -/

/-- Indexing with a default value. -/
def nthD : List α → Nat → α → α
  | [], _, d => d
  | a :: _, 0, _ => a
  | _ :: tl, i + 1, d => nthD tl i d

/-- Last element with a default value. -/
def lastD : List α → α → α
  | [], d => d
  | [a], _ => a
  | _ :: b :: tl, d => lastD (b :: tl) d

/-- Apply f to the last element of a list, if any. -/
def updateLast (f : α → α) : List α → List α
  | [] => []
  | [a] => [f a]
  | a :: b :: rest => a :: updateLast f (b :: rest)

theorem length_updateLast (f : α → α) (l : List α) :
    (updateLast f l).length = l.length := by
  induction l with
  | nil => rfl
  | cons a tl ih =>
    cases tl with
    | nil => rfl
    | cons b rest => simpa [updateLast] using ih

theorem lastD_updateLast (f : α → α) (d : α) :
    ∀ (l : List α), l ≠ [] → lastD (updateLast f l) d = f (lastD l d)
  | [], h => absurd rfl h
  | [_], _ => rfl
  | a :: b :: rest, _ => by
    show lastD (a :: updateLast f (b :: rest)) d = f (lastD (b :: rest) d)
    rw [← lastD_updateLast f d (b :: rest) (by simp)]
    cases rest with
    | nil => rfl
    | cons e tl => rfl

theorem nthD_set_self (l : List α) (i : Nat) (a d : α) (h : i < l.length) :
    nthD (l.set i a) i d = a := by
  induction l generalizing i with
  | nil => simp at h
  | cons b tl ih =>
    cases i with
    | zero => rfl
    | succ j =>
      show nthD (tl.set j a) j d = a
      exact ih j (by simpa using h)

/-- Entry check of Composition::parseXmlNote (composition.cpp 327-333): when
the backup stack top is zero, pop both stacks and restore currPart from the
part-restore stack. A zero top with an empty prevParts stack would be
undefined behaviour in the C++ (std::stack::top on empty); it is modelled as
a no-op and is unreachable while the two stacks have equal depth. -/
def noteEntryPop (c : Composition) : Composition :=
  match c.backups, c.prevParts with
  | 0 :: bs, p :: ps => { c with backups := bs, currPart := p, prevParts := ps }
  | _, _ => c

/-- Part creation of composition.cpp 362-364: if currPart is at or past the
end of parts, exactly one empty Part is appended. (When currPart is strictly
greater than parts.size() the subsequent parts[currPart] access is undefined
behaviour in the C++; theorems needing that access assume
currPart < (ensureParts c).length.) -/
def ensureParts (c : Composition) : List Part :=
  if c.parts.length ≤ c.currPart then c.parts ++ [⟨[]⟩] else c.parts

/-- Measure creation of composition.cpp 368-370: ensure the current part has
at least one Measure. -/
def ensureMeasure (p : Part) : Part :=
  if p.measures.isEmpty then ⟨p.measures ++ [⟨[], 0⟩]⟩ else p

theorem ensureMeasure_ne_nil (p : Part) : (ensureMeasure p).measures ≠ [] := by
  cases hm : p.measures with
  | nil => simp [ensureMeasure, hm]
  | cons m rest => simp [ensureMeasure, hm]

/-- Composition::parseXmlNote (composition.cpp 314-409) after its child-token
extraction loop: freq is the frequency computed from the pitch child, rawDur
the unsigned duration text, isChord whether a chord marker child was present.
The note length is rawDur / currDivisions (float division in the C++). The
chord-length mismatch check of lines 382-384 prints a warning and has no
state effect, so it does not appear. Error returns carry the state as already
mutated at the point of the return, as in the C++. -/
def parseXmlNote (c : Composition) (freq : ℚ) (rawDur : Nat) (isChord : Bool) :
    ErrorCode × Composition :=
  let c1 := noteEntryPop c
  let noteLen : ℚ := (rawDur : ℚ) / (c1.currDivisions : ℚ)
  let ps := ensureParts c1
  let part := ensureMeasure (nthD ps c1.currPart ⟨[]⟩)
  let meas := lastD part.measures ⟨[], 0⟩
  if isChord then
    if meas.notes.isEmpty then
      (ErrorCode.XML_PARSE, { c1 with parts := ps.set c1.currPart part })
    else
      let meas2 := { meas with
        notes := updateLast
          (fun n => { n with frequencies := n.frequencies ++ [freq] }) meas.notes }
      let part2 := { part with
        measures := updateLast (fun _ => meas2) part.measures }
      (ErrorCode.NO_ERROR, { c1 with parts := ps.set c1.currPart part2 })
  else
    let note : Note := { frequencies := [freq], length := noteLen }
    let meas2 := { meas with
      notes := meas.notes ++ [note],
      xmlDurationSum := meas.xmlDurationSum + rawDur }
    let part2 := { part with
      measures := updateLast (fun _ => meas2) part.measures }
    let c2 := { c1 with parts := ps.set c1.currPart part2 }
    match c2.backups with
    | [] => (ErrorCode.NO_ERROR, c2)
    | bd :: bs =>
      if bd < rawDur then (ErrorCode.XML_PARSE, c2)
      else (ErrorCode.NO_ERROR, { c2 with backups := (bd - rawDur) :: bs })

/-- C6: for a note event carrying the chord marker, if the current measure
(after the ensure-part and ensure-measure steps) has at least one note, the
computed frequency is appended to the last note's frequency sequence while
that note's length field, the measure's note count and its duration counter
are all unchanged (the length mismatch check is only a warning); if the
current measure has no notes, parsing fails with ChordWithoutNote
(XML_PARSE). -/
theorem parseXmlNote_chord_spec (c : Composition) (freq : ℚ) (rawDur : Nat)
    (c1 : Composition) (hc1 : c1 = noteEntryPop c)
    (ps : List Part) (hps : ps = ensureParts c1)
    (hcur : c1.currPart < ps.length)
    (part : Part) (hpart : part = ensureMeasure (nthD ps c1.currPart ⟨[]⟩))
    (meas : Measure) (hmeas : meas = lastD part.measures ⟨[], 0⟩) :
    (meas.notes = [] →
      parseXmlNote c freq rawDur true
        = (ErrorCode.XML_PARSE, { c1 with parts := ps.set c1.currPart part }))
    ∧ (meas.notes ≠ [] →
      (parseXmlNote c freq rawDur true).1 = ErrorCode.NO_ERROR
      ∧ (lastD (nthD (parseXmlNote c freq rawDur true).2.parts
            c1.currPart ⟨[]⟩).measures ⟨[], 0⟩).notes.length = meas.notes.length
      ∧ lastD (lastD (nthD (parseXmlNote c freq rawDur true).2.parts
            c1.currPart ⟨[]⟩).measures ⟨[], 0⟩).notes ⟨[], 0⟩
          = { lastD meas.notes ⟨[], 0⟩ with
              frequencies := (lastD meas.notes ⟨[], 0⟩).frequencies ++ [freq] }
      ∧ (lastD (nthD (parseXmlNote c freq rawDur true).2.parts
            c1.currPart ⟨[]⟩).measures ⟨[], 0⟩).xmlDurationSum
          = meas.xmlDurationSum) := by
  subst hc1 hps hpart hmeas
  constructor
  · intro hempty
    simp only [parseXmlNote]
    rw [hempty]
    rfl
  · intro hne
    have hisEmpty : (lastD (ensureMeasure (nthD (ensureParts (noteEntryPop c))
        (noteEntryPop c).currPart (⟨[]⟩ : Part))).measures
        (⟨[], 0⟩ : Measure)).notes.isEmpty = false := by
      cases hh : (lastD (ensureMeasure (nthD (ensureParts (noteEntryPop c))
          (noteEntryPop c).currPart (⟨[]⟩ : Part))).measures
          (⟨[], 0⟩ : Measure)).notes with
      | nil => exact absurd hh hne
      | cons n ns => rfl
    simp only [parseXmlNote, hisEmpty, Bool.false_eq_true, if_false, if_true]
    simp only [nthD_set_self _ _ _ _ hcur,
      lastD_updateLast _ _ _ (ensureMeasure_ne_nil _)]
    refine ⟨?_, ?_, ?_, ?_⟩
    · trivial
    · exact length_updateLast _ _
    · exact lastD_updateLast _ _ _ hne
    · trivial

/-- Concrete composition for the C6 witness: one part with one measure
holding one plain note. -/
def cChord : Composition :=
  { initialComposition with parts := [⟨[⟨[⟨[440], 1⟩], 4⟩]⟩] }

/-- Witness for C6: a chord member arriving after a plain note succeeds. -/
theorem parseXmlNote_chord_spec_witness :
    (parseXmlNote cChord 330 4 true).1 = ErrorCode.NO_ERROR :=
  ((parseXmlNote_chord_spec cChord 330 4
    (noteEntryPop cChord) rfl
    (ensureParts (noteEntryPop cChord)) rfl
    (by decide)
    (ensureMeasure (nthD (ensureParts (noteEntryPop cChord))
      (noteEntryPop cChord).currPart ⟨[]⟩)) rfl
    (lastD (ensureMeasure (nthD (ensureParts (noteEntryPop cChord))
      (noteEntryPop cChord).currPart ⟨[]⟩)).measures ⟨[], 0⟩) rfl).2
    (by decide)).1

/-- C7: for a non-chord note appended while the backup stack (at append time,
after the entry pop) is non-empty, a raw duration exceeding the top counter
fails with BackupUnderflow (XML_PARSE) and leaves the stack unchanged, and
otherwise the call succeeds with exactly the top counter decremented by the
raw duration. -/
theorem parseXmlNote_backup_spec (c : Composition) (freq : ℚ) (rawDur : Nat)
    (bd : Nat) (bs : List Nat) (hb : (noteEntryPop c).backups = bd :: bs) :
    (bd < rawDur →
      (parseXmlNote c freq rawDur false).1 = ErrorCode.XML_PARSE
      ∧ (parseXmlNote c freq rawDur false).2.backups = bd :: bs)
    ∧ (rawDur ≤ bd →
      (parseXmlNote c freq rawDur false).1 = ErrorCode.NO_ERROR
      ∧ (parseXmlNote c freq rawDur false).2.backups = (bd - rawDur) :: bs) := by
  constructor
  · intro h
    simp only [parseXmlNote, Bool.false_eq_true, if_false]
    rw [hb]
    simp [if_pos h, hb]
  · intro h
    simp only [parseXmlNote, Bool.false_eq_true, if_false]
    rw [hb]
    simp [if_neg (Nat.not_lt.mpr h)]

/-- Concrete composition for the C7 witness: an open backup scope with
remaining duration 4. -/
def cBack : Composition :=
  { initialComposition with
      parts := [⟨[⟨[⟨[440], 1⟩], 4⟩]⟩],
      backups := [4], prevParts := [0], currPart := 1 }

/-- Witness for C7: appending a non-chord note of raw duration 2 under an
open backup scope of remaining duration 4 succeeds and leaves the top
counter at 2. -/
theorem parseXmlNote_backup_spec_witness :
    (parseXmlNote cBack 440 2 false).1 = ErrorCode.NO_ERROR
    ∧ (parseXmlNote cBack 440 2 false).2.backups = [4 - 2] :=
  (parseXmlNote_backup_spec cBack 440 2 4 [] (by decide)).2 (by decide)

/-! Event-Driven Score Builder: backup parsing, measure boundaries, part
exits and the top-level parse loop (composition.cpp 63-145, 270-306). -/

/-- Composition::parseXmlBackup (composition.cpp 270-306) after its
child-token extraction loop: duration is the unsigned duration text (0 when
no duration child was present). A zero duration is rejected (ZeroBackup,
XML_PARSE); otherwise the duration is pushed onto the backup stack, currPart
onto the part-restore stack, and currPart advances by one. -/
def parseXmlBackup (c : Composition) (duration : Nat) : ErrorCode × Composition :=
  if duration = 0 then (ErrorCode.XML_PARSE, c)
  else (ErrorCode.NO_ERROR,
    { c with backups := duration :: c.backups,
             prevParts := c.currPart :: c.prevParts,
             currPart := c.currPart + 1 })

/-- Drain loop shared by the measure-boundary handler (composition.cpp
95-104) and the part-exit handler (123-132): pop backup scopes while the
backup stack is non-empty; a non-zero top is an error (UnresolvedBackup,
XML_PARSE) that leaves the remaining stacks as they stand; each successful
pop restores currPart from the part-restore stack. Arguments are
(backups, prevParts, currPart); the result is a success flag followed by the
final backups, prevParts and currPart. A zero top with an empty part-restore
stack would be undefined behaviour in the C++ (std::stack::top on empty); it
is modelled as a failure and is unreachable while the stacks have equal
depth. -/
def drainLoop : List Nat → List Nat → Nat → Bool × List Nat × List Nat × Nat
  | [], prevs, cur => (true, [], prevs, cur)
  | b :: bs, prevs, cur =>
    if b ≠ 0 then (false, b :: bs, prevs, cur)
    else
      match prevs with
      | p :: ps => drainLoop bs ps p
      | [] => (false, b :: bs, [], cur)

/-- Measure boundary (StartElement measure, composition.cpp 93-111): drain
the backup stack, then append a new empty Measure to every part at index
at or above currPart. -/
def handleMeasureStart (c : Composition) : ErrorCode × Composition :=
  match drainLoop c.backups c.prevParts c.currPart with
  | (true, bks, prevs, cur) =>
    (ErrorCode.NO_ERROR,
      { c with backups := bks, prevParts := prevs, currPart := cur,
               parts := c.parts.mapIdx (fun i p =>
                 if cur ≤ i then { p with measures := p.measures ++ [⟨[], 0⟩] }
                 else p) })
  | (false, bks, prevs, cur) =>
    (ErrorCode.XML_PARSE,
      { c with backups := bks, prevParts := prevs, currPart := cur })

/-- Part exit (EndElement part, composition.cpp 121-135): drain the backup
stack, then advance currPart by one. -/
def handlePartEnd (c : Composition) : ErrorCode × Composition :=
  match drainLoop c.backups c.prevParts c.currPart with
  | (true, bks, prevs, cur) =>
    (ErrorCode.NO_ERROR,
      { c with backups := bks, prevParts := prevs, currPart := cur + 1 })
  | (false, bks, prevs, cur) =>
    (ErrorCode.XML_PARSE,
      { c with backups := bks, prevParts := prevs, currPart := cur })

/-- Top-level structural events dispatched by the while loop of
Composition::parse (composition.cpp 78-137), with the child-token extraction
of the sub-parsers already performed (the tokenizer is an external
collaborator per the specification): note carries the computed pitch
frequency, the raw duration and the chord flag; backup carries its duration;
perMinute and divisions carry their integer text; measureStart is the
StartElement measure case and partEnd the EndElement part case. -/
inductive ParseEvent where
  | note (freq : ℚ) (rawDur : Nat) (isChord : Bool)
  | backup (duration : Nat)
  | measureStart
  | perMinute (v : Nat)
  | divisions (v : Nat)
  | partEnd
  deriving DecidableEq, Repr

/-- One iteration of the while loop of Composition::parse
(composition.cpp 78-137). -/
def parseStep (c : Composition) : ParseEvent → ErrorCode × Composition
  | ParseEvent.note freq rawDur isChord => parseXmlNote c freq rawDur isChord
  | ParseEvent.backup duration => parseXmlBackup c duration
  | ParseEvent.measureStart => handleMeasureStart c
  | ParseEvent.perMinute v => (ErrorCode.NO_ERROR, { c with bpm := v })
  | ParseEvent.divisions v => (ErrorCode.NO_ERROR, { c with currDivisions := v })
  | ParseEvent.partEnd => handlePartEnd c

/-- The while loop of Composition::parse: process events until the
end-of-document marker (the end of the list); any error aborts immediately
with the state at that point. When the end of the document is reached the
loop simply returns NO_ERROR: composition.cpp 139-144 performs no final
check of any kind (the final checks are an unfinished TODO in the source). -/
def parseEvents : Composition → List ParseEvent → ErrorCode × Composition
  | c, [] => (ErrorCode.NO_ERROR, c)
  | c, e :: es =>
    match parseStep c e with
    | (ErrorCode.NO_ERROR, c2) => parseEvents c2 es
    | (code, c2) => (code, c2)

/-- Composition::parse (composition.cpp 63-145): clears parts and the part
cursor, then runs the event loop. The file-open step belongs to the excluded
file acquisition collaborator; the other members hold their constructor
values on a first parse, which is what initialComposition provides. -/
def parse (events : List ParseEvent) : ErrorCode × Composition :=
  parseEvents { initialComposition with parts := [], currPart := 0 } events

/-- C4 counterexample: a document whose only structural event is a backup of
duration 4 reaches the end-of-document marker with that backup scope still
open, yet parse returns NO_ERROR (success): composition.cpp checks the
backup stack only at measure boundaries and part exits, never at the
end-of-document marker. -/
theorem parse_open_backup_success :
    (parse [ParseEvent.backup 4]).1 = ErrorCode.NO_ERROR
    ∧ (parse [ParseEvent.backup 4]).2.backups ≠ [] := by
  exact ⟨rfl, by decide⟩

/-- C4 (amended): reaching the end-of-document marker never fails; parse
returns NO_ERROR with the state unchanged even when backup scopes are still
open. Unresolved scopes are detected only at measure boundaries and part
exits. -/
theorem parseEvents_end_of_document (c : Composition) (h : c.backups ≠ []) :
    parseEvents c [] = (ErrorCode.NO_ERROR, c) := rfl

/-- Witness for C4: end of document with an open backup scope of duration
4. -/
theorem parseEvents_end_of_document_witness :
    parseEvents { initialComposition with backups := [4], prevParts := [0] } []
      = (ErrorCode.NO_ERROR,
         { initialComposition with backups := [4], prevParts := [0] }) :=
  parseEvents_end_of_document
    { initialComposition with backups := [4], prevParts := [0] } (by decide)

/-! Stack-depth invariant (claim C8). -/

theorem noteEntryPop_depth (c : Composition)
    (h : c.backups.length = c.prevParts.length) :
    (noteEntryPop c).backups.length = (noteEntryPop c).prevParts.length := by
  unfold noteEntryPop
  cases hcb : c.backups with
  | nil => exact h
  | cons b bs =>
    cases b with
    | succ n => exact h
    | zero =>
      cases hcp : c.prevParts with
      | nil => exact h
      | cons p ps =>
        rw [hcb, hcp] at h
        simpa using h

theorem parseXmlNote_depth (c : Composition) (freq : ℚ) (rawDur : Nat)
    (isChord : Bool) (h : c.backups.length = c.prevParts.length) :
    (parseXmlNote c freq rawDur isChord).2.backups.length
      = (parseXmlNote c freq rawDur isChord).2.prevParts.length := by
  have h1 := noteEntryPop_depth c h
  cases isChord with
  | true =>
    simp only [parseXmlNote, if_true]
    split
    · simpa using h1
    · simpa using h1
  | false =>
    simp only [parseXmlNote, Bool.false_eq_true, if_false]
    cases hb2 : (noteEntryPop c).backups with
    | nil =>
      rw [hb2] at h1
      simpa using h1
    | cons bd bs =>
      rw [hb2] at h1
      by_cases hlt : bd < rawDur
      · simpa [hlt] using h1
      · simpa [hlt] using h1

theorem drainLoop_depth : ∀ (bks prevs : List Nat) (cur : Nat),
    bks.length = prevs.length →
    ((drainLoop bks prevs cur).2.1).length
      = ((drainLoop bks prevs cur).2.2.1).length := by
  intro bks
  induction bks with
  | nil =>
    intro prevs cur h
    simpa [drainLoop] using h
  | cons b bs ih =>
    intro prevs cur h
    by_cases hb : b = 0
    · subst hb
      cases prevs with
      | nil => simp at h
      | cons p ps =>
        show ((drainLoop bs ps p).2.1).length = ((drainLoop bs ps p).2.2.1).length
        exact ih ps p (by simpa using h)
    · simp only [drainLoop, if_pos hb]
      simpa using h

/-- C8: every builder operation — note parsing (entry pop, underflow check
and counter update), backup parsing (push of both stacks), measure-boundary
handling and part-exit handling (lock-step drain of both stacks) — preserves
equality of the backup-stack and part-restore-stack depths, in both its
success and its error outcome, so the two stacks have equal depth at every
point of a parse pass started from the empty stacks. -/
theorem parseStep_stack_depth (c : Composition) (e : ParseEvent)
    (h : c.backups.length = c.prevParts.length) :
    (parseStep c e).2.backups.length = (parseStep c e).2.prevParts.length := by
  cases e with
  | note freq rawDur isChord => exact parseXmlNote_depth c freq rawDur isChord h
  | backup duration =>
    by_cases hd : duration = 0
    · simpa [parseStep, parseXmlBackup, hd] using h
    · simpa [parseStep, parseXmlBackup, hd] using h
  | measureStart =>
    have hd := drainLoop_depth c.backups c.prevParts c.currPart h
    simp only [parseStep, handleMeasureStart]
    split <;> (rename_i bks prevs cur heq; rw [heq] at hd; simpa using hd)
  | perMinute v => simpa [parseStep] using h
  | divisions v => simpa [parseStep] using h
  | partEnd =>
    have hd := drainLoop_depth c.backups c.prevParts c.currPart h
    simp only [parseStep, handlePartEnd]
    split <;> (rename_i bks prevs cur heq; rw [heq] at hd; simpa using hd)

/-- Concrete composition for the C8 witness: one open backup scope, stack
depths both 1. -/
def cDepth : Composition :=
  { initialComposition with backups := [2], prevParts := [0], currPart := 1 }

/-- Witness for C8: a non-chord note consuming part of the open scope keeps
the two stacks at equal depth. -/
theorem parseStep_stack_depth_witness :
    (parseStep cDepth (ParseEvent.note 440 2 false)).2.backups.length
      = (parseStep cDepth (ParseEvent.note 440 2 false)).2.prevParts.length :=
  parseStep_stack_depth cDepth (ParseEvent.note 440 2 false) (by decide)

/-! Protocol Encoder/Downloader (Composition::noteToCmd and
Composition::download, composition.cpp 159-262). -/

/-- Composition::noteToCmd (composition.cpp 159-186): renders the set-note
command string. The truncating static_cast of the non-negative float values
to uint32_t is modelled as the rational floor taken to Nat (equal to
truncation for the non-negative values involved). A chordIdx out of range of
the frequency list leaves the frequency at 0 with only a warning, as in
lines 169-173. -/
def noteToCmd (c : Composition) (note : Note) (chan : Channel)
    (jingleIdx noteIdx chordIdx : Nat) : String :=
  let chanStr : String :=
    match chan with
    | Channel.RIGHT => "right"
    | Channel.LEFT => "left"
  let dutyCycle : Nat := 128
  let frequency : Nat :=
    if chordIdx < note.frequencies.length then
      ((nthD note.frequencies chordIdx 0) * c.octaveAdjust).floor.toNat
    else 0
  let durationMs : Nat := (note.length * 60 * 1000 / (c.bpm : ℚ)).floor.toNat
  "jingle note " ++ toString jingleIdx ++ " " ++ chanStr ++ " "
    ++ toString noteIdx ++ " " ++ toString dutyCycle ++ " "
    ++ toString frequency ++ " " ++ toString durationMs ++ "\n"

/-- The note-sending loop of Composition::download (composition.cpp
235-259), linearized over the notes of all measures of part 0 in order
(note_cnt of the C++ is exactly the index in that flattened order). respOk
models the transport collaborator: respOk n says whether the n-th serial
exchange of this download returns the expected echo-plus-success response.
The returned list is the sequence of commands sent, in order: each note is
sent first for the RIGHT then for the LEFT channel, a failed exchange was
still sent, and the download aborts with CMD_ERR on the first failure. -/
def downloadNotes (respOk : Nat → Bool) (c : Composition) (jingleIdx : Nat) :
    List Note → Nat → Nat → ErrorCode × List String
  | [], _, _ => (ErrorCode.NO_ERROR, [])
  | note :: rest, noteCnt, sendIdx =>
    let cmdR := noteToCmd c note Channel.RIGHT jingleIdx noteCnt 0
    if respOk sendIdx then
      let cmdL := noteToCmd c note Channel.LEFT jingleIdx noteCnt 0
      if respOk (sendIdx + 1) then
        let res := downloadNotes respOk c jingleIdx rest (noteCnt + 1) (sendIdx + 2)
        (res.1, cmdR :: cmdL :: res.2)
      else (ErrorCode.CMD_ERR, [cmdR, cmdL])
    else (ErrorCode.CMD_ERR, [cmdR])

/-- Composition::download (composition.cpp 199-262): parts_idx is hardwired
to 0 and the measure loop runs over all measures of that part — the
configured channel parts and the configured measure range are never
consulted (the unfinished TODOs of lines 208 and 240 of the source). It
sends the allocate command with the total note count of part 0, then the
set-note commands for every note of part 0, right channel before left, both
channels built from the same part-0 note with chordIdx 0. With no parts at
all, parts_idx 0 is out of range and the function returns NO_ERROR having
sent nothing (lines 213-216). -/
def download (respOk : Nat → Bool) (c : Composition) (jingleIdx : Nat) :
    ErrorCode × List String :=
  match c.parts with
  | [] => (ErrorCode.NO_ERROR, [])
  | part :: _ =>
    let numNotes := (part.measures.map (fun m => m.notes.length)).sum
    let cmd := "jingle add " ++ toString numNotes ++ " "
      ++ toString numNotes ++ "\n"
    if respOk 0 then
      let res := downloadNotes respOk c jingleIdx
        ((part.measures.map (fun m => m.notes)).flatten) 0 1
      (res.1, cmd :: res.2)
    else (ErrorCode.CMD_ERR, [cmd])

theorem downloadNotes_congr (r1 r2 : Nat → Bool)
    (h1 : ∀ n, r1 n = true) (h2 : ∀ n, r2 n = true)
    (c : Composition) (jingleIdx : Nat) :
    ∀ (notes : List Note) (noteCnt sendIdx : Nat),
      downloadNotes r1 c jingleIdx notes noteCnt sendIdx
        = downloadNotes r2 c jingleIdx notes noteCnt sendIdx := by
  intro notes
  induction notes with
  | nil => intro noteCnt sendIdx; rfl
  | cons note rest ih =>
    intro noteCnt sendIdx
    simp only [downloadNotes, h1, h2, if_true]
    rw [ih (noteCnt + 1) (sendIdx + 2)]

/-- C9: the command sequence of a download run is a deterministic function
of the Composition (Timeline plus Configuration) and the jingle slot index:
two independent runs against transports that acknowledge every exchange
return identical results with byte-identical command sequences. -/
theorem download_deterministic (c : Composition) (jingleIdx : Nat)
    (r1 r2 : Nat → Bool) (h1 : ∀ n, r1 n = true) (h2 : ∀ n, r2 n = true) :
    download r1 c jingleIdx = download r2 c jingleIdx := by
  cases hp : c.parts with
  | nil => simp only [download, hp]
  | cons part rest =>
    simp only [download, hp, h1, h2, if_true]
    rw [downloadNotes_congr r1 r2 h1 h2 c jingleIdx]

/-- Concrete composition for the C9 witness: one part, one measure, one
note. -/
def cDet : Composition :=
  { initialComposition with parts := [⟨[⟨[⟨[440], 1⟩], 4⟩]⟩] }

/-- Witness for C9: two syntactically different always-acknowledging
transports give the same download run. -/
theorem download_deterministic_witness :
    download (fun _ => true) cDet 0 = download (fun n => n == n) cDet 0 :=
  download_deterministic cDet 0 (fun _ => true) (fun n => n == n)
    (fun _ => rfl) (fun n => by simp)

/-- C10: for a Timeline with zero parts, download returns NO_ERROR and
sends no command at all — not even the allocate command — whatever the
transport does and whatever the slot index is. -/
theorem download_no_parts (r : Nat → Bool) (c : Composition) (jingleIdx : Nat)
    (h : c.parts = []) :
    download r c jingleIdx = (ErrorCode.NO_ERROR, []) := by
  simp only [download, h]

/-- Witness for C10: the freshly constructed Composition has no parts, and
download sends nothing even against a transport that would reject every
exchange. -/
theorem download_no_parts_witness :
    download (fun _ => false) initialComposition 7 = (ErrorCode.NO_ERROR, []) :=
  download_no_parts (fun _ => false) initialComposition 7 rfl

/-- Modelled from the spec (4.6 step 1): the total note count across the
configured measure range [measStartIdx, measEndIdx) of the right channel's
configured part — what the claim says the allocate command carries. -/
def specConfiguredNoteCount (c : Composition) : Nat :=
  ((List.range' c.measStartIdx (c.measEndIdx - c.measStartIdx)).map
    (fun i =>
      (nthD (nthD c.parts c.partIdxR ⟨[]⟩).measures i ⟨[], 0⟩).notes.length)).sum

/-- Concrete composition for C2: two parts; part 0 holds 3 notes across two
measures; part 1 — the configured right-channel part — holds 1 note in the
configured measure range [0, 1). -/
def cDl : Composition :=
  { initialComposition with
      parts :=
        [⟨[⟨[⟨[440], 1⟩, ⟨[330], 1⟩], 0⟩, ⟨[⟨[220], 1⟩], 0⟩]⟩,
         ⟨[⟨[⟨[550], 1⟩], 0⟩, ⟨[⟨[660], 1⟩], 0⟩]⟩],
      partIdxR := 1,
      measStartIdx := 0,
      measEndIdx := 1 }

/-- C2 (code evaluation at the failing input): the allocate command counts
all 3 notes of part 0 over all of its measures, while the configured
measure range of the configured right-channel part holds 1 note — the
configuration is ignored by Composition::download (hardwired parts_idx 0
and a full measure loop). -/
theorem download_ignores_configuration :
    (download (fun _ => true) cDl 0).2.head? = some "jingle add 3 3\n"
    ∧ specConfiguredNoteCount cDl = 1
    ∧ (3 : Nat) ≠ 1 := by
  exact ⟨rfl, rfl, by decide⟩

/-! Capacity Estimator and Channel/Range Configuration
(composition.cpp 497-519, 630-690). -/

/-- The byte count computed by the loop of Composition::getMemUsage
(composition.cpp 503-516): NUM_JINGLE_HDR_BYTES plus BYTES_PER_NOTE per
note of both configured channels' parts over the configured measure range.
The unchecked parts[...] and measures[...] indexing of the C++ is modelled
with defaults. -/
def memUsageByteCnt (c : Composition) : Nat :=
  let NUM_JINGLE_HDR_BYTES := 4
  let BYTES_PER_NOTE := 6
  let part_r := nthD c.parts c.partIdxR ⟨[]⟩
  let part_l := nthD c.parts c.partIdxL ⟨[]⟩
  NUM_JINGLE_HDR_BYTES +
    ((List.range' c.measStartIdx (c.measEndIdx - c.measStartIdx)).map
      (fun i => (nthD part_r.measures i ⟨[], 0⟩).notes.length * BYTES_PER_NOTE
        + (nthD part_l.measures i ⟨[], 0⟩).notes.length * BYTES_PER_NOTE)).sum

/-- Composition::getMemUsage (composition.cpp 497-519): computes byte_cnt
but then executes `return 0` (line 518), discarding the computed count. It
only reads the configuration and the timeline; nothing is mutated. -/
def getMemUsage (c : Composition) : Nat :=
  let byte_cnt := memUsageByteCnt c
  0

/-- Concrete composition for C1: one part holding one measure with two
notes, measure range [0, 1), both channels configured to part 0. The
documented capacity is 4 + (2 + 2) * 6 = 28 bytes. -/
def cMem : Composition :=
  { initialComposition with
      parts := [⟨[⟨[⟨[440], 1⟩, ⟨[330], 1⟩], 0⟩]⟩],
      measEndIdx := 1 }

/-- C1 (code evaluation at the failing input): Composition::getMemUsage
returns 0; the byte count it computes — which does equal
headerBytes + notesInRange x bytesPerNote as the claim states, 28 here —
is discarded by the final `return 0` of composition.cpp line 518. -/
theorem getMemUsage_returns_zero :
    getMemUsage cMem = 0 ∧ memUsageByteCnt cMem = 28 ∧ (0 : Nat) ≠ 28 := by
  exact ⟨rfl, rfl, by decide⟩

/-- Composition::setMeasStartIdx (composition.cpp 630-646): fails with
BAD_IDX when there are no parts or when the argument is at or beyond the
first part's measure count, leaving the stored value unchanged; otherwise
stores the argument. -/
def setMeasStartIdx (c : Composition) (measStartIdx : Nat) :
    ErrorCode × Composition :=
  match c.parts with
  | [] => (ErrorCode.BAD_IDX, c)
  | part :: _ =>
    if part.measures.length ≤ measStartIdx then (ErrorCode.BAD_IDX, c)
    else (ErrorCode.NO_ERROR, { c with measStartIdx := measStartIdx })

/-- Composition::setMeasEndIdx (composition.cpp 665-681): the bounds check
of line 673 tests the stored measStartIdx member, not the measEndIdx
argument, so the argument is stored unvalidated whenever the stored start
index is in bounds (and an in-bounds argument is rejected whenever it is
not). -/
def setMeasEndIdx (c : Composition) (measEndIdx : Nat) :
    ErrorCode × Composition :=
  match c.parts with
  | [] => (ErrorCode.BAD_IDX, c)
  | part :: _ =>
    if part.measures.length ≤ c.measStartIdx then (ErrorCode.BAD_IDX, c)
    else (ErrorCode.NO_ERROR, { c with measEndIdx := measEndIdx })

/-- Concrete composition for C3: one part with exactly one measure, stored
measStartIdx 0. -/
def cCfg : Composition :=
  { initialComposition with parts := [⟨[⟨[⟨[440], 1⟩], 4⟩]⟩] }

/-- C3 (code evaluation at the failing input): setMeasEndIdx accepts the
out-of-bounds index 5 against a measure count of 1 — returning NO_ERROR and
storing 5 — because composition.cpp line 673 validates the stored
measStartIdx instead of the argument. setMeasStartIdx, as the claim states,
rejects index 5 with InvalidIndex (BAD_IDX) and leaves the stored value
unchanged. -/
theorem setMeasEndIdx_accepts_out_of_bounds :
    (setMeasEndIdx cCfg 5).1 = ErrorCode.NO_ERROR
    ∧ (setMeasEndIdx cCfg 5).2.measEndIdx = 5
    ∧ (setMeasStartIdx cCfg 5).1 = ErrorCode.BAD_IDX
    ∧ (setMeasStartIdx cCfg 5).2.measStartIdx = cCfg.measStartIdx := by
  exact ⟨rfl, rfl, rfl, rfl⟩

end OSC
